import Mathlib

/-
Verification of the o1_web_crawler pipeline (examples/o1_web_crawler/o1_web_crawler.py).

The script is a sequential orchestration pipeline: a ranking phase
(find_relevant_page_via_map) turns an objective into a search phrase via a model
completion and asks the mapping collaborator for candidate pages; a driver loop
(find_objective_in_top_pages) loads the persisted vendor document, iterates the
candidate pages, extracts vendor records from each model response and saves the
accumulated list after each successfully parsed response; main sequences the two
phases and reports the outcome.

The embedding below models the Python data and control flow directly:

* JValue models the values produced by json.loads; a jobj holds the items of a
  parsed Python dict (unique keys, insertion order preserved).
* Disk models the persisted o1_web_crawler_results.json: none means the file is
  absent, some none means it is present but not valid JSON, some (some v) means
  it is present and parses to v.
* PageOutcome models what processing one candidate page produces: pageError c
  for an exception (scrape_url, the completion call, or any other exception such
  as a TimeoutError delivered while inside the per-page try block) caught by the
  per-page except-Exception handler; response r for a completed model call whose
  text parses to r (none models a json.JSONDecodeError from json.loads).
* ExcClass distinguishes Python exception classes where the control flow cares:
  every listed class derives from Exception, so a bare except-Exception handler
  catches each of them, while the except-TimeoutError handler in main catches
  only timeoutError and the except-json.JSONDecodeError handler around the load
  catches none of them.
-/

namespace O1WebCrawler

/-- JSON values as produced by Python json.loads.  jobj holds the items of the
resulting dict in insertion order with unique keys. -/
inductive JValue where
  | jnull
  | jbool (b : Bool)
  | jnum (n : Int)
  | jstr (s : String)
  | jarr (elems : List JValue)
  | jobj (fields : List (String × JValue))

/-- Python exception classes relevant to the script.  All of them derive from
Exception, so a bare except-Exception clause catches every one. -/
inductive ExcClass where
  | timeoutError
  | attributeError
  | otherError
  deriving DecidableEq

/-- Outcome of processing one candidate page, as seen by the per-page try block
of find_objective_in_top_pages: either some step before the JSON parse raised an
exception (pageError), or the model returned text whose json.loads result is
given (response none models a json.JSONDecodeError). -/
inductive PageOutcome where
  | pageError (c : ExcClass)
  | response (parsed : Option JValue)

/-- The persisted o1_web_crawler_results.json document: none = file absent,
some none = file present but not valid JSON, some (some v) = parses to v. -/
abbrev Disk := Option (Option JValue)

/-- Python iteration over a value, as used by list.extend: a list yields its
elements, a str yields its characters as one-character strings, a dict yields
its keys; anything else raises TypeError (modelled as none). -/
def pyIter : JValue → Option (List JValue)
  | .jarr xs => some xs
  | .jstr s => some (s.toList.map fun c => .jstr (String.mk [c]))
  | .jobj fs => some (fs.map fun p => .jstr p.1)
  | _ => none

/-- Python len(): defined for lists, strings and dicts; anything else raises
TypeError (modelled as none). -/
def pyLen : JValue → Option Nat
  | .jarr xs => some xs.length
  | .jstr s => some s.length
  | .jobj fs => some fs.length
  | _ => none

/-- Python truthiness of a json.loads value, as used by the if statements in
main. -/
def pyTruthy : JValue → Bool
  | .jnull => false
  | .jbool b => b
  | .jnum n => n != 0
  | .jstr s => !s.isEmpty
  | .jarr xs => !xs.isEmpty
  | .jobj fs => !fs.isEmpty

/-- Python all_vendors.extend(v): only a list has extend (anything else raises
AttributeError), and the argument must be iterable (otherwise TypeError).
Either exception is modelled as none; no element is appended in that case. -/
def pyExtend : JValue → JValue → Option JValue
  | .jarr xs, v => (pyIter v).map fun ys => .jarr (xs ++ ys)
  | _, _ => none

/-- Python isinstance(v, list). -/
def isList : JValue → Bool
  | .jarr _ => true
  | _ => false

/-- The conditional extend of all_vendors performed on the parsed response v:
if isinstance(v, list) extend with v; elif isinstance(v, dict) and a vendors
key is present extend with its value; otherwise leave all_vendors unchanged.
Returns none when the extend raises (caught only by the outer per-page
handler); in that case all_vendors is unchanged. -/
def extendStep (acc v : JValue) : Option JValue :=
  if isList v then pyExtend acc v
  else
    match v with
    | .jobj fs =>
      match fs.lookup "vendors" with
      | some w => pyExtend acc w
      | none => some acc
    | _ => some acc

/-- The body of the inner try of find_objective_in_top_pages after json.loads
succeeded with value v: the conditional extend, then the len(vendors) call in
the progress message, then control reaches the save.  Returns the all_vendors
value at the save, or none when an exception escapes to the outer per-page
handler (only json.JSONDecodeError is caught by the inner handler).  When the
len call raises, no extend branch was taken, so all_vendors is unchanged. -/
def innerBody (acc v : JValue) : Option JValue :=
  match extendStep acc v with
  | none => none
  | some acc2 =>
    match pyLen v with
    | none => none
    | some _ => some acc2

/-- One iteration of the for-link loop of find_objective_in_top_pages: given
the current all_vendors and the outcome of the page, return the new all_vendors
and whether the save executed. -/
def pageStep (acc : JValue) : PageOutcome → JValue × Bool
  | .pageError _ => (acc, false)
  | .response none => (acc, false)
  | .response (some v) =>
    match innerBody acc v with
    | none => (acc, false)
    | some acc2 => (acc2, true)

/-- The for-link loop of find_objective_in_top_pages: fold pageStep over the
candidate pages, overwriting the document with the full serialization of
all_vendors under the vendors key whenever the save executes. -/
def runPages (acc : JValue) (disk : Disk) : List PageOutcome → JValue × Disk
  | [] => (acc, disk)
  | oc :: rest =>
    match pageStep acc oc with
    | (acc2, true) => runPages acc2 (some (some (.jobj [("vendors", acc2)]))) rest
    | (acc2, false) => runPages acc2 disk rest

/-- The successive all_vendors snapshots written by the saves of a run, in
order. -/
def saveTrace (acc : JValue) : List PageOutcome → List JValue
  | [] => []
  | oc :: rest =>
    match pageStep acc oc with
    | (acc2, true) => acc2 :: saveTrace acc2 rest
    | (acc2, false) => saveTrace acc2 rest

/-- The load prelude of find_objective_in_top_pages: if the file is absent,
all_vendors starts empty; if json.load raises JSONDecodeError a warning is
printed and all_vendors starts empty; if the file parses to a dict, all_vendors
is existing_data.get of the vendors key with an empty-list default; if the file
parses to any non-dict value, the .get call raises AttributeError, which the
except-json.JSONDecodeError clause does not catch. -/
def loadVendors : Disk → Except ExcClass JValue
  | none => .ok (.jarr [])
  | some none => .ok (.jarr [])
  | some (some (.jobj fs)) => .ok ((fs.lookup "vendors").getD (.jarr []))
  | some (some _) => .error .attributeError

/-- find_objective_in_top_pages: load the persisted document, then run the
for-link loop; an exception raised by the load propagates to the caller.
Returns the final all_vendors together with the final document state. -/
def find_objective_in_top_pages (disk : Disk) (pages : List PageOutcome) :
    Except ExcClass (JValue × Disk) :=
  match loadVendors disk with
  | .error e => .error e
  | .ok acc => .ok (runPages acc disk pages)

/-- The search parameter sent to app.map_url: the raw message content of the
completion, with no transformation applied (the source performs no strip). -/
def searchParameterOf (modelText : String) : String := modelText

/-- Modelled from the spec: the trimming the spec ascribes to the ranking
phase, namely removing surrounding whitespace from the raw model response.
This definition follows the words of the spec and is compared against
searchParameterOf, which embeds what the source actually does. -/
def trimSpec (s : String) : String :=
  String.mk (((s.toList.dropWhile (fun c => c.isWhitespace)).reverse.dropWhile
    (fun c => c.isWhitespace)).reverse)

/-- find_relevant_page_via_map: obtain the search parameter from the model,
call the mapping collaborator with it, and return its result; the surrounding
except-Exception clause turns any failure of either step into a None return. -/
def find_relevant_page_via_map (modelResp : Except ExcClass String)
    (mapUrl : String → Except ExcClass (List String)) : Option (List String) :=
  match modelResp with
  | .error _ => none
  | .ok text =>
    match mapUrl (searchParameterOf text) with
    | .error _ => none
    | .ok links => some links

/-- Terminal report of main: the message printed (or the uncaught exception)
when the run ends. -/
inductive MainReport where
  | noPages
  | noVendors
  | success (n : Nat)
  | crashed (c : ExcClass)

/-- main after the ranking phase: mapWebsite is the return value of
find_relevant_page_via_map, with each candidate page identified with the
outcome its processing produces.  A None or empty mapWebsite is falsy, so both
print the no-relevant-pages message; otherwise find_objective_in_top_pages
runs, an exception escaping it is uncaught (the handler in main catches only
TimeoutError), and the final report applies Python truthiness and len to the
returned all_vendors. -/
def main (mapWebsite : Option (List PageOutcome)) (disk : Disk) :
    MainReport × Disk :=
  match mapWebsite with
  | none => (.noPages, disk)
  | some pages =>
    if pages.isEmpty then (.noPages, disk)
    else
      match find_objective_in_top_pages disk pages with
      | .error e => (.crashed e, disk)
      | .ok (vs, disk2) =>
        if pyTruthy vs then
          match pyLen vs with
          | some n => (.success n, disk2)
          | none => (.crashed .otherError, disk2)
        else (.noVendors, disk2)

/-- Records a page contributes together with whether its save executes, as a
function of the page outcome alone; valid whenever all_vendors is a list.
none = no save (page exception, parse failure, or TypeError from extend or
len); some ds = the save executes after appending ds. -/
def pageRecords : PageOutcome → Option (List JValue)
  | .pageError _ => none
  | .response none => none
  | .response (some (.jarr ys)) => some ys
  | .response (some (.jobj fs)) =>
    match fs.lookup "vendors" with
    | some w => pyIter w
    | none => some []
  | .response (some (.jstr _)) => some []
  | .response (some _) => none

/-! Helper lemmas relating pageStep on a list-valued all_vendors to
pageRecords, and describing the loop. -/

theorem pageStep_jarr_none (xs : List JValue) (oc : PageOutcome)
    (h : pageRecords oc = none) : pageStep (.jarr xs) oc = (.jarr xs, false) := by
  cases oc with
  | pageError c => rfl
  | response r =>
    cases r with
    | none => rfl
    | some v =>
      cases v with
      | jnull => rfl
      | jbool b => rfl
      | jnum n => rfl
      | jstr s => simp [pageRecords] at h
      | jarr ys => simp [pageRecords] at h
      | jobj fs =>
        simp only [pageRecords] at h
        cases hl : fs.lookup "vendors" with
        | none => rw [hl] at h; simp at h
        | some w =>
          rw [hl] at h
          simp only [] at h
          simp [pageStep, innerBody, extendStep, isList, hl, pyExtend, h]

theorem pageStep_jarr_some (xs : List JValue) (oc : PageOutcome)
    (ds : List JValue) (h : pageRecords oc = some ds) :
    pageStep (.jarr xs) oc = (.jarr (xs ++ ds), true) := by
  cases oc with
  | pageError c => simp [pageRecords] at h
  | response r =>
    cases r with
    | none => simp [pageRecords] at h
    | some v =>
      cases v with
      | jnull => simp [pageRecords] at h
      | jbool b => simp [pageRecords] at h
      | jnum n => simp [pageRecords] at h
      | jstr s =>
        simp only [pageRecords, Option.some.injEq] at h
        subst h
        simp [pageStep, innerBody, extendStep, isList, pyLen]
      | jarr ys =>
        simp only [pageRecords, Option.some.injEq] at h
        subst h
        rfl
      | jobj fs =>
        simp only [pageRecords] at h
        cases hl : fs.lookup "vendors" with
        | none =>
          rw [hl] at h
          simp only [Option.some.injEq] at h
          subst h
          simp [pageStep, innerBody, extendStep, isList, hl, pyLen]
        | some w =>
          rw [hl] at h
          simp only [] at h
          simp [pageStep, innerBody, extendStep, isList, hl, pyExtend, h, pyLen]

theorem runPages_cons_none (xs : List JValue) (oc : PageOutcome) (d : Disk)
    (rest : List PageOutcome) (h : pageRecords oc = none) :
    runPages (.jarr xs) d (oc :: rest) = runPages (.jarr xs) d rest := by
  simp [runPages, pageStep_jarr_none xs oc h]

theorem runPages_cons_some (xs : List JValue) (oc : PageOutcome) (d : Disk)
    (rest : List PageOutcome) (ds : List JValue) (h : pageRecords oc = some ds) :
    runPages (.jarr xs) d (oc :: rest) =
      runPages (.jarr (xs ++ ds))
        (some (some (.jobj [("vendors", .jarr (xs ++ ds))]))) rest := by
  simp [runPages, pageStep_jarr_some xs oc ds h]

theorem saveTrace_cons_none (xs : List JValue) (oc : PageOutcome)
    (rest : List PageOutcome) (h : pageRecords oc = none) :
    saveTrace (.jarr xs) (oc :: rest) = saveTrace (.jarr xs) rest := by
  simp [saveTrace, pageStep_jarr_none xs oc h]

theorem saveTrace_cons_some (xs : List JValue) (oc : PageOutcome)
    (rest : List PageOutcome) (ds : List JValue) (h : pageRecords oc = some ds) :
    saveTrace (.jarr xs) (oc :: rest) =
      .jarr (xs ++ ds) :: saveTrace (.jarr (xs ++ ds)) rest := by
  simp [saveTrace, pageStep_jarr_some xs oc ds h]

/-- Every save of a run started on a list-valued all_vendors writes a list, and
the successive written lists form a chain under the prefix order starting from
the initial list: each save appends to what the previous save wrote. -/
theorem saveTrace_chain : ∀ (pages : List PageOutcome) (xs : List JValue),
    ∃ ys : List (List JValue),
      saveTrace (.jarr xs) pages = ys.map JValue.jarr ∧
      List.Chain' (· <+: ·) (xs :: ys) := by
  intro pages
  induction pages with
  | nil => exact fun xs => ⟨[], rfl, List.chain'_singleton xs⟩
  | cons oc rest ih =>
    intro xs
    cases hr : pageRecords oc with
    | none =>
      obtain ⟨ys, h1, h2⟩ := ih xs
      exact ⟨ys, by rw [saveTrace_cons_none xs oc rest hr]; exact h1, h2⟩
    | some ds =>
      obtain ⟨ys, h1, h2⟩ := ih (xs ++ ds)
      refine ⟨(xs ++ ds) :: ys, ?_, ?_⟩
      · rw [saveTrace_cons_some xs oc rest ds hr, List.map_cons, h1]
      · rw [List.chain'_cons]
        exact ⟨⟨ds, rfl⟩, h2⟩

/-- The all_vendors value of a run started on a list is that list with records
appended at the end; nothing is ever removed or reordered. -/
theorem runPages_acc_append : ∀ (pages : List PageOutcome) (xs : List JValue)
    (d : Disk), ∃ ds, (runPages (.jarr xs) d pages).1 = .jarr (xs ++ ds) := by
  intro pages
  induction pages with
  | nil => exact fun xs d => ⟨[], by simp [runPages]⟩
  | cons oc rest ih =>
    intro xs d
    cases hr : pageRecords oc with
    | none =>
      obtain ⟨ds, hds⟩ := ih xs d
      exact ⟨ds, by rw [runPages_cons_none xs oc d rest hr]; exact hds⟩
    | some ds =>
      obtain ⟨es, hes⟩ :=
        ih (xs ++ ds) (some (some (.jobj [("vendors", .jarr (xs ++ ds))])))
      exact ⟨ds ++ es, by
        rw [runPages_cons_some xs oc d rest ds hr, hes, List.append_assoc]⟩

/-- The document at the end of the loop is the initial document when no save
executed, and otherwise the full serialization, under the vendors key, of the
all_vendors snapshot of the last save. -/
theorem runPages_disk : ∀ (pages : List PageOutcome) (acc : JValue) (d : Disk),
    (runPages acc d pages).2 =
      (saveTrace acc pages).foldl
        (fun _ a => some (some (.jobj [("vendors", a)]))) d := by
  intro pages
  induction pages with
  | nil => exact fun acc d => rfl
  | cons oc rest ih =>
    intro acc d
    cases hp : pageStep acc oc with
    | mk acc2 saved =>
      cases saved
      · simp only [runPages, saveTrace, hp]
        exact ih acc2 d
      · simp only [runPages, saveTrace, hp, List.foldl_cons]
        exact ih acc2 _

/-! Claim theorems. -/

/-- C1: every successful save writes the persisted document as an object with a
vendors key holding the record sequence, and that sequence equals the
previously persisted (or loaded) sequence with zero or more new records
appended at the end: the written snapshots form a prefix chain starting from
the loaded sequence (so no record is removed, rewritten or reordered and the
length is monotonically non-decreasing across saves), the final in-memory
sequence is the loaded sequence with records appended, the final document is
the initial one or the vendors serialization of the last snapshot, and the
concrete run loading one Existing record and extracting one New record
persists Existing before New. -/
theorem c1_append_only_persistence :
    (∀ (pages : List PageOutcome) (xs : List JValue),
        ∃ ys : List (List JValue),
          saveTrace (.jarr xs) pages = ys.map JValue.jarr ∧
          List.Chain' (· <+: ·) (xs :: ys) ∧
          List.Chain' (fun a b => a.length ≤ b.length) (xs :: ys))
    ∧ (∀ (pages : List PageOutcome) (xs : List JValue) (d : Disk),
        ∃ ds, (runPages (.jarr xs) d pages).1 = .jarr (xs ++ ds))
    ∧ (∀ (pages : List PageOutcome) (acc : JValue) (d : Disk),
        (runPages acc d pages).2 =
          (saveTrace acc pages).foldl
            (fun _ a => some (some (.jobj [("vendors", a)]))) d)
    ∧ find_objective_in_top_pages
        (some (some (.jobj [("vendors",
          .jarr [.jobj [("name", .jstr "Existing")]])])))
        [.response (some (.jarr [.jobj [("name", .jstr "New")]]))]
      = .ok (.jarr [.jobj [("name", .jstr "Existing")],
                    .jobj [("name", .jstr "New")]],
             some (some (.jobj [("vendors",
               .jarr [.jobj [("name", .jstr "Existing")],
                      .jobj [("name", .jstr "New")]])]))) := by
  refine ⟨?_, runPages_acc_append, runPages_disk, rfl⟩
  intro pages xs
  obtain ⟨ys, h1, h2⟩ := saveTrace_chain pages xs
  exact ⟨ys, h1, h2, h2.imp fun a b hab => hab.length_le⟩

/-- C2: the extraction parser maps a parsed top-level array to exactly that
record sequence in order (appended in order to the accumulated list), maps an
object whose vendors key holds an array to that array in order, and yields
zero records on a JSON parse failure or on any other parsed shape (number,
boolean, null, string, object without a vendors key); no response shape is
ever fatal to the run, which completes normally for every page list. -/
theorem c2_extraction_shapes :
    (∀ ys : List JValue, pageRecords (.response (some (.jarr ys))) = some ys)
    ∧ (∀ (xs ys : List JValue),
        pageStep (.jarr xs) (.response (some (.jarr ys)))
          = (.jarr (xs ++ ys), true))
    ∧ (∀ (fs : List (String × JValue)) (ys : List JValue),
        fs.lookup "vendors" = some (.jarr ys) →
          pageRecords (.response (some (.jobj fs))) = some ys)
    ∧ pageRecords (.response none) = none
    ∧ (∀ n : Int, pageRecords (.response (some (.jnum n))) = none)
    ∧ (∀ b : Bool, pageRecords (.response (some (.jbool b))) = none)
    ∧ pageRecords (.response (some .jnull)) = none
    ∧ (∀ s : String, pageRecords (.response (some (.jstr s))) = some [])
    ∧ (∀ fs : List (String × JValue), fs.lookup "vendors" = none →
        pageRecords (.response (some (.jobj fs))) = some [])
    ∧ (∀ pages : List PageOutcome,
        ∃ out, find_objective_in_top_pages none pages = .ok out) := by
  refine ⟨fun ys => rfl, ?_, ?_, rfl, fun n => rfl, fun b => rfl, rfl,
    fun s => rfl, ?_, fun pages => ⟨runPages (.jarr []) none pages, rfl⟩⟩
  · intro xs ys
    exact pageStep_jarr_some xs _ ys rfl
  · intro fs ys h
    simp [pageRecords, h, pyIter]
  · intro fs h
    simp [pageRecords, h]

/-- C2 witness: the extraction of the documented two-vendor response, applying
the object-with-vendors clause at a concrete input. -/
theorem c2_extraction_witness :
    pageRecords (.response (some (.jobj [("vendors",
      .jarr [.jobj [("name", .jstr "A")], .jobj [("name", .jstr "B")]])])))
      = some [.jobj [("name", .jstr "A")], .jobj [("name", .jstr "B")]]
    ∧ pageRecords (.response (some (.jobj [("other", .jnull)]))) = some [] := by
  obtain ⟨-, -, h3, -, -, -, -, -, h9, -⟩ := c2_extraction_shapes
  exact ⟨h3 _ _ rfl, h9 _ rfl⟩

/-- C3 counterexample: a page whose model response parses to the empty JSON
array yields zero records, yet the save is invoked and the persisted document
changes (here the initially corrupt document is overwritten by the empty
vendors document), refuting the claim that save runs if and only if at least
one record was extracted. -/
theorem c3_counterexample :
    find_objective_in_top_pages (some none) [.response (some (.jarr []))]
      = .ok (.jarr [], some (some (.jobj [("vendors", .jarr [])])))
    ∧ pageRecords (.response (some (.jarr []))) = some []
    ∧ (some none : Disk) ≠ some (some (.jobj [("vendors", .jarr [])])) := by
  refine ⟨rfl, rfl, ?_⟩
  simp

/-- C3 amended: the save is invoked for a candidate page if and only if the
model response parsed as JSON and the subsequent record appending and progress
length computation raised no exception, regardless of how many records were
extracted; in particular a response parsing to an empty array, a string, or an
object without a vendors key triggers a save with zero new records, while a
parse failure or a page exception skips the save. -/
theorem c3_amended_save_iff_parse :
    ∀ (xs : List JValue) (oc : PageOutcome),
      (pageStep (.jarr xs) oc).2 = (pageRecords oc).isSome := by
  intro xs oc
  cases h : pageRecords oc with
  | none => rw [pageStep_jarr_none xs oc h]; rfl
  | some ds => rw [pageStep_jarr_some xs oc ds h]; rfl

/-- C4: when the ranking phase returns an empty candidate sequence, main
reports the no-pages failure and terminates with the document unchanged, and
find_objective_in_top_pages is never invoked (witnessed by the document state
that would make it raise being returned untouched); an empty sequence and a
None return are distinct values of find_relevant_page_via_map, the first
produced when the mapping collaborator succeeds with no candidates, the second
produced on failure. -/
theorem c4_empty_candidates :
    (∀ d : Disk, main (some []) d = (.noPages, d))
    ∧ main (some []) (some (some (.jarr [])))
        = (.noPages, some (some (.jarr [])))
    ∧ find_relevant_page_via_map (.ok "search") (fun _ => .ok []) = some []
    ∧ (∀ c : ExcClass,
        find_relevant_page_via_map (.ok "search") (fun _ => .error c) = none)
    ∧ (some ([] : List String) ≠ (none : Option (List String))) := by
  refine ⟨fun d => rfl, rfl, rfl, fun c => rfl, ?_⟩
  simp

/-- C5: a failure of the fetch or the model call for one candidate page, or a
JSON parse failure of its response, is contained at the page boundary and the
loop continues with the remaining candidates from an unchanged state; in the
concrete three-page run whose second page fails, the first and third pages are
both processed and their records persisted in order. -/
theorem c5_page_failure_isolated :
    (∀ (acc : JValue) (d : Disk) (c : ExcClass) (rest : List PageOutcome),
        runPages acc d (.pageError c :: rest) = runPages acc d rest)
    ∧ (∀ (acc : JValue) (d : Disk) (rest : List PageOutcome),
        runPages acc d (.response none :: rest) = runPages acc d rest)
    ∧ find_objective_in_top_pages none
        [.response (some (.jarr [.jobj [("name", .jstr "P1")]])),
         .pageError .otherError,
         .response (some (.jarr [.jobj [("name", .jstr "P3")]]))]
      = .ok (.jarr [.jobj [("name", .jstr "P1")],
                    .jobj [("name", .jstr "P3")]],
             some (some (.jobj [("vendors",
               .jarr [.jobj [("name", .jstr "P1")],
                      .jobj [("name", .jstr "P3")]])]))) :=
  ⟨fun _ _ _ _ => rfl, fun _ _ _ => rfl, rfl⟩

/-- C6: the load returns an empty record sequence when the persisted document
is absent, and when the document is present but its content is not valid JSON
it returns an empty record sequence while the corrupt content stays on disk
(the run leaves the document untouched until a save overwrites it). -/
theorem c6_load_fallbacks :
    loadVendors none = .ok (.jarr [])
    ∧ loadVendors (some none) = .ok (.jarr [])
    ∧ find_objective_in_top_pages (some none) [] = .ok (.jarr [], some none)
    ∧ find_objective_in_top_pages (some none) [.pageError .otherError]
        = .ok (.jarr [], some none) :=
  ⟨rfl, rfl, rfl, rfl⟩

/-- C7 counterexample: the source sends the raw model response to the mapping
collaborator with no trimming, so for the response with surrounding whitespace
the phrase sent (observed through a collaborator echoing its argument) is the
untrimmed text, which differs from the trimmed form the claim requires. -/
theorem c7_counterexample :
    find_relevant_page_via_map (.ok " fashion ") (fun s => .ok [s])
      = some [" fashion "]
    ∧ searchParameterOf " fashion " = " fashion "
    ∧ trimSpec " fashion " = "fashion"
    ∧ ((some [" fashion "] : Option (List String)) ≠ some ["fashion"]) := by
  refine ⟨rfl, rfl, by decide, by decide⟩

/-- C7 amended: the search phrase sent to the mapping collaborator equals the
raw model response verbatim with no trimming, and on success the ranking phase
returns the mapping collaborator result sequence verbatim, preserving its
order. -/
theorem c7_amended_untrimmed_verbatim :
    (∀ s : String, searchParameterOf s = s)
    ∧ (∀ (s : String) (m : String → Except ExcClass (List String))
        (links : List String),
        m (searchParameterOf s) = .ok links →
          find_relevant_page_via_map (.ok s) m = some links) := by
  refine ⟨fun s => rfl, ?_⟩
  intro s m links h
  simp [find_relevant_page_via_map, h]

/-- C7 amended witness: the verbatim return at a concrete input. -/
theorem c7_amended_witness :
    find_relevant_page_via_map (.ok "fashion")
      (fun _ => .ok ["u1", "u2"]) = some ["u1", "u2"] :=
  c7_amended_untrimmed_verbatim.2 "fashion" (fun _ => .ok ["u1", "u2"])
    ["u1", "u2"] rfl

/-- C8: the ranking phase returns None exactly when some step failed, namely
when the model call failed or the mapping collaborator call failed, and it
never propagates an exception: every run produces either a None or a candidate
sequence. -/
theorem c8_rank_none_iff_failure :
    ∀ (r : Except ExcClass String)
      (m : String → Except ExcClass (List String)),
      (find_relevant_page_via_map r m = none ↔
        (∃ c, r = .error c)
        ∨ (∃ s c, r = .ok s ∧ m (searchParameterOf s) = .error c))
      ∧ (find_relevant_page_via_map r m = none
        ∨ ∃ links, find_relevant_page_via_map r m = some links) := by
  intro r m
  cases r with
  | error c => simp [find_relevant_page_via_map]
  | ok s =>
    cases hm : m (searchParameterOf s) with
    | error c => simp [find_relevant_page_via_map, hm]
    | ok links => simp [find_relevant_page_via_map, hm]

/-- C9 counterexample: a TimeoutError delivered while the first candidate page
is inside the per-page try block is caught by the except-Exception handler
like any other page failure, the loop continues, the second page is processed
and persisted, and the run terminates in the success state rather than the
timeout state; likewise a TimeoutError delivered during the ranking phase is
absorbed by its except-Exception handler and surfaces as a None ranking
result.  This refutes the claim that the timeout always terminates the run
early and is never absorbed as a per-page failure. -/
theorem c9_counterexample :
    main (some [.pageError .timeoutError,
                .response (some (.jarr [.jobj [("name", .jstr "V")]]))]) none
      = (.success 1,
         some (some (.jobj [("vendors",
           .jarr [.jobj [("name", .jstr "V")]])])))
    ∧ find_relevant_page_via_map (.error .timeoutError)
        (fun _ => .ok ["u"]) = none :=
  ⟨rfl, rfl⟩

/-- C9 amended: the alarm-raised TimeoutError terminates the run only when it
is raised outside the except-Exception handlers; a TimeoutError raised while a
candidate page is being processed is handled exactly like any other page
failure and the loop continues, and a TimeoutError raised during the ranking
phase makes the ranking return None, reported as the no-pages failure rather
than the timeout failure. -/
theorem c9_amended_timeout_absorbed :
    (∀ (acc : JValue) (d : Disk) (rest : List PageOutcome),
        runPages acc d (.pageError .timeoutError :: rest)
          = runPages acc d rest)
    ∧ (∀ (acc : JValue) (d : Disk) (rest : List PageOutcome) (c : ExcClass),
        runPages acc d (.pageError .timeoutError :: rest)
          = runPages acc d (.pageError c :: rest))
    ∧ (∀ m : String → Except ExcClass (List String),
        find_relevant_page_via_map (.error .timeoutError) m = none)
    ∧ (∀ d : Disk, main none d = (.noPages, d)) :=
  ⟨fun _ _ _ => rfl, fun _ _ _ _ => rfl, fun _ => rfl, fun _ => rfl⟩

/-- C10: when the persisted document pre-exists with valid JSON whose top
level is not an object, the load raises an AttributeError that no handler
catches, so the run aborts with the document untouched; the start-fresh
fallback to an empty sequence happens only for a JSON parse failure (and for
an absent file). -/
theorem c10_nonobject_doc_aborts :
    (∀ pages : List PageOutcome, pages ≠ [] →
        main (some pages) (some (some (.jarr [])))
          = (.crashed .attributeError, some (some (.jarr []))))
    ∧ loadVendors (some (some (.jarr []))) = .error .attributeError
    ∧ (∀ s : String,
        loadVendors (some (some (.jstr s))) = .error .attributeError)
    ∧ (∀ n : Int,
        loadVendors (some (some (.jnum n))) = .error .attributeError)
    ∧ (∀ b : Bool,
        loadVendors (some (some (.jbool b))) = .error .attributeError)
    ∧ loadVendors (some (some .jnull)) = .error .attributeError
    ∧ loadVendors (some none) = .ok (.jarr []) := by
  refine ⟨?_, rfl, fun s => rfl, fun n => rfl, fun b => rfl, rfl, rfl⟩
  intro pages h
  cases pages with
  | nil => exact absurd rfl h
  | cons a t => rfl

/-- C10 witness: the abort at a concrete nonempty page list. -/
theorem c10_witness :
    main (some [.pageError .otherError]) (some (some (.jarr [])))
      = (.crashed .attributeError, some (some (.jarr []))) :=
  c10_nonobject_doc_aborts.1 [.pageError .otherError] (by simp)

end O1WebCrawler
